import Mathlib

/-!
Verification of the alexa_rust SDK core: the open-enumeration string codec,
the `Locale` type, and the request/response envelope data model, embedded
shallowly from `src/lib.rs`, `src/request.rs`, `src/response.rs`,
`src/audioplayer.rs` and `src/display.rs`.

JSON documents are modelled by the inductive `Alexa.Json` (objects keep their
field order, as an association list).  Rust `HashMap` fields are modelled as
association lists with key lookup; serde deserialization is modelled by
`fromJson` functions returning `Except String`, and serde serialization by
`toJson` functions (fields marked `skip_serializing_if = "Option::is_none"`
are omitted from the emitted object when the option is `none`).
-/

namespace Alexa

/-- Model of a `serde_json::Value`: JSON trees, with objects as ordered
association lists and numbers as integers (no claim involves fractional
numbers). -/
inductive Json where
  | null : Json
  | bool (b : Bool) : Json
  | num (n : Int) : Json
  | str (s : String) : Json
  | arr (elems : List Json) : Json
  | obj (fields : List (String × Json)) : Json
deriving BEq

/-- Field lookup on a JSON object; `none` on non-objects and missing keys. -/
def Json.getField (j : Json) (k : String) : Option Json :=
  match j with
  | .obj fields => fields.lookup k
  | _ => none

/-- Keys of a JSON object, in emission order (empty for non-objects). -/
def Json.keys (j : Json) : List String :=
  match j with
  | .obj fields => fields.map Prod.fst
  | _ => []

/-- Open enumeration `RequestType` from `src/request.rs` (declared through
`declare_api_enum` with the PascalCase convention, so each known variant's
wire string is its own name). -/
inductive RequestType where
  | LaunchRequest
  | IntentRequest
  | SessionEndedRequest
  | CanFulfillIntentRequest
  | Other (s : String)
deriving DecidableEq

/-- Wire string of a `RequestType` (serde serialization: known variants use
their renamed name, the untagged `Other` serializes its string verbatim). -/
def RequestType.toWire : RequestType → String
  | .LaunchRequest => "LaunchRequest"
  | .IntentRequest => "IntentRequest"
  | .SessionEndedRequest => "SessionEndedRequest"
  | .CanFulfillIntentRequest => "CanFulfillIntentRequest"
  | .Other s => s

/-- Decoding a wire string into a `RequestType` (serde deserialization of the
enum with the untagged `Other(String)` fallback). -/
def RequestType.fromString (s : String) : RequestType :=
  if s = "LaunchRequest" then .LaunchRequest
  else if s = "IntentRequest" then .IntentRequest
  else if s = "SessionEndedRequest" then .SessionEndedRequest
  else if s = "CanFulfillIntentRequest" then .CanFulfillIntentRequest
  else .Other s

/-- The known wire strings of `RequestType`. -/
def RequestType.wireStrings : List String :=
  ["LaunchRequest", "IntentRequest", "SessionEndedRequest", "CanFulfillIntentRequest"]

/-- Whether a `RequestType` is a known symbol (not the unknown carrier). -/
def RequestType.isKnown : RequestType → Bool
  | .Other _ => false
  | _ => true

/-- Open enumeration `IntentType` from `src/request.rs`: eighteen built-in
Amazon intents, each with an explicit `AMAZON.<Name>Intent` rename, plus the
untagged `Other(String)` carrier. -/
inductive IntentType where
  | Help
  | Cancel
  | Fallback
  | LoopOff
  | LoopOn
  | NavigateHome
  | Next
  | No
  | Pause
  | Previous
  | Repeat
  | Resume
  | Select
  | ShuffleOff
  | ShuffleOn
  | StartOver
  | Stop
  | Yes
  | Other (s : String)
deriving DecidableEq

/-- Wire string of an `IntentType` per its serde renames. -/
def IntentType.toWire : IntentType → String
  | .Help => "AMAZON.HelpIntent"
  | .Cancel => "AMAZON.CancelIntent"
  | .Fallback => "AMAZON.FallbackIntent"
  | .LoopOff => "AMAZON.LoopOffIntent"
  | .LoopOn => "AMAZON.LoopOnIntent"
  | .NavigateHome => "AMAZON.NavigateHomeIntent"
  | .Next => "AMAZON.NextIntent"
  | .No => "AMAZON.NoIntent"
  | .Pause => "AMAZON.PauseIntent"
  | .Previous => "AMAZON.PreviousIntent"
  | .Repeat => "AMAZON.RepeatIntent"
  | .Resume => "AMAZON.ResumeIntent"
  | .Select => "AMAZON.SelectIntent"
  | .ShuffleOff => "AMAZON.ShuffleOffIntent"
  | .ShuffleOn => "AMAZON.ShuffleOnIntent"
  | .StartOver => "AMAZON.StartOverIntent"
  | .Stop => "AMAZON.StopIntent"
  | .Yes => "AMAZON.YesIntent"
  | .Other s => s

/-- Decoding a wire string into an `IntentType`. -/
def IntentType.fromString (s : String) : IntentType :=
  if s = "AMAZON.HelpIntent" then .Help
  else if s = "AMAZON.CancelIntent" then .Cancel
  else if s = "AMAZON.FallbackIntent" then .Fallback
  else if s = "AMAZON.LoopOffIntent" then .LoopOff
  else if s = "AMAZON.LoopOnIntent" then .LoopOn
  else if s = "AMAZON.NavigateHomeIntent" then .NavigateHome
  else if s = "AMAZON.NextIntent" then .Next
  else if s = "AMAZON.NoIntent" then .No
  else if s = "AMAZON.PauseIntent" then .Pause
  else if s = "AMAZON.PreviousIntent" then .Previous
  else if s = "AMAZON.RepeatIntent" then .Repeat
  else if s = "AMAZON.ResumeIntent" then .Resume
  else if s = "AMAZON.SelectIntent" then .Select
  else if s = "AMAZON.ShuffleOffIntent" then .ShuffleOff
  else if s = "AMAZON.ShuffleOnIntent" then .ShuffleOn
  else if s = "AMAZON.StartOverIntent" then .StartOver
  else if s = "AMAZON.StopIntent" then .Stop
  else if s = "AMAZON.YesIntent" then .Yes
  else .Other s

/-- The known wire strings of `IntentType`. -/
def IntentType.wireStrings : List String :=
  ["AMAZON.HelpIntent", "AMAZON.CancelIntent", "AMAZON.FallbackIntent",
   "AMAZON.LoopOffIntent", "AMAZON.LoopOnIntent", "AMAZON.NavigateHomeIntent",
   "AMAZON.NextIntent", "AMAZON.NoIntent", "AMAZON.PauseIntent",
   "AMAZON.PreviousIntent", "AMAZON.RepeatIntent", "AMAZON.ResumeIntent",
   "AMAZON.SelectIntent", "AMAZON.ShuffleOffIntent", "AMAZON.ShuffleOnIntent",
   "AMAZON.StartOverIntent", "AMAZON.StopIntent", "AMAZON.YesIntent"]

/-- Whether an `IntentType` is a known symbol. -/
def IntentType.isKnown : IntentType → Bool
  | .Other _ => false
  | _ => true

/-- Open enumeration `SpeechType` from `src/response.rs` (PascalCase
convention: wire strings equal the variant names, so `SSML` stays `SSML`). -/
inductive SpeechType where
  | PlainText
  | SSML
  | Other (s : String)
deriving DecidableEq

/-- Wire string of a `SpeechType`. -/
def SpeechType.toWire : SpeechType → String
  | .PlainText => "PlainText"
  | .SSML => "SSML"
  | .Other s => s

/-- Decoding a wire string into a `SpeechType`. -/
def SpeechType.fromString (s : String) : SpeechType :=
  if s = "PlainText" then .PlainText
  else if s = "SSML" then .SSML
  else .Other s

/-- The known wire strings of `SpeechType`. -/
def SpeechType.wireStrings : List String := ["PlainText", "SSML"]

/-- Whether a `SpeechType` is a known symbol. -/
def SpeechType.isKnown : SpeechType → Bool
  | .Other _ => false
  | _ => true

/-- Open enumeration `CardType` from `src/response.rs` (PascalCase
convention). -/
inductive CardType where
  | Simple
  | Standard
  | LinkAccount
  | AskForPermissionsConsent
  | Other (s : String)
deriving DecidableEq

/-- Wire string of a `CardType`. -/
def CardType.toWire : CardType → String
  | .Simple => "Simple"
  | .Standard => "Standard"
  | .LinkAccount => "LinkAccount"
  | .AskForPermissionsConsent => "AskForPermissionsConsent"
  | .Other s => s

/-- Decoding a wire string into a `CardType`. -/
def CardType.fromString (s : String) : CardType :=
  if s = "Simple" then .Simple
  else if s = "Standard" then .Standard
  else if s = "LinkAccount" then .LinkAccount
  else if s = "AskForPermissionsConsent" then .AskForPermissionsConsent
  else .Other s

/-- The known wire strings of `CardType`. -/
def CardType.wireStrings : List String :=
  ["Simple", "Standard", "LinkAccount", "AskForPermissionsConsent"]

/-- Whether a `CardType` is a known symbol. -/
def CardType.isKnown : CardType → Bool
  | .Other _ => false
  | _ => true

/-- Open enumeration `PlayBehavior` from `src/response.rs`
(SCREAMING_SNAKE_CASE convention applied to the variant names). -/
inductive PlayBehavior where
  | Enqueue
  | ReplaceAll
  | ReplaceEnqueued
  | Other (s : String)
deriving DecidableEq

/-- Wire string of a `PlayBehavior`. -/
def PlayBehavior.toWire : PlayBehavior → String
  | .Enqueue => "ENQUEUE"
  | .ReplaceAll => "REPLACE_ALL"
  | .ReplaceEnqueued => "REPLACE_ENQUEUED"
  | .Other s => s

/-- Decoding a wire string into a `PlayBehavior`. -/
def PlayBehavior.fromString (s : String) : PlayBehavior :=
  if s = "ENQUEUE" then .Enqueue
  else if s = "REPLACE_ALL" then .ReplaceAll
  else if s = "REPLACE_ENQUEUED" then .ReplaceEnqueued
  else .Other s

/-- The known wire strings of `PlayBehavior`. -/
def PlayBehavior.wireStrings : List String :=
  ["ENQUEUE", "REPLACE_ALL", "REPLACE_ENQUEUED"]

/-- Whether a `PlayBehavior` is a known symbol. -/
def PlayBehavior.isKnown : PlayBehavior → Bool
  | .Other _ => false
  | _ => true

/-- Open enumeration `ImageSize` from `src/display.rs`
(SCREAMING_SNAKE_CASE convention applied to the variant names). -/
inductive ImageSize where
  | XSmall
  | Small
  | Medium
  | Large
  | XLarge
  | Other (s : String)
deriving DecidableEq

/-- Wire string of an `ImageSize`. -/
def ImageSize.toWire : ImageSize → String
  | .XSmall => "X_SMALL"
  | .Small => "SMALL"
  | .Medium => "MEDIUM"
  | .Large => "LARGE"
  | .XLarge => "X_LARGE"
  | .Other s => s

/-- Decoding a wire string into an `ImageSize`. -/
def ImageSize.fromString (s : String) : ImageSize :=
  if s = "X_SMALL" then .XSmall
  else if s = "SMALL" then .Small
  else if s = "MEDIUM" then .Medium
  else if s = "LARGE" then .Large
  else if s = "X_LARGE" then .XLarge
  else .Other s

/-- The known wire strings of `ImageSize`. -/
def ImageSize.wireStrings : List String :=
  ["X_SMALL", "SMALL", "MEDIUM", "LARGE", "X_LARGE"]

/-- Whether an `ImageSize` is a known symbol. -/
def ImageSize.isKnown : ImageSize → Bool
  | .Other _ => false
  | _ => true

/-- The `Locale` enum from `src/request.rs`: fifteen known Alexa locales plus
the `Other(String)` carrier.  Note the source represents a locale as a single
flat value, not as a language/region pair. -/
inductive Locale where
  | Italian
  | German
  | AustralianEnglish
  | CanadianEnglish
  | BritishEnglish
  | IndianEnglish
  | AmericanEnglish
  | Japanese
  | Spanish
  | MexicanSpanish
  | AmericanSpanish
  | Hindi
  | French
  | CanadianFrench
  | BrazilianPortuguese
  | Other (s : String)
deriving DecidableEq

/-- `Locale::is_english` from `src/request.rs`. -/
def Locale.is_english : Locale → Bool
  | .AmericanEnglish => true
  | .AustralianEnglish => true
  | .CanadianEnglish => true
  | .BritishEnglish => true
  | .IndianEnglish => true
  | _ => false

/-- `Locale::is_french` from `src/request.rs`. -/
def Locale.is_french : Locale → Bool
  | .French => true
  | .CanadianFrench => true
  | _ => false

/-- `Locale::is_spanish` from `src/request.rs`. -/
def Locale.is_spanish : Locale → Bool
  | .Spanish => true
  | .AmericanSpanish => true
  | .MexicanSpanish => true
  | _ => false

/-- `Locale::as_str` from `src/request.rs`. -/
def Locale.as_str : Locale → String
  | .Italian => "it-IT"
  | .German => "de-DE"
  | .AustralianEnglish => "en-AU"
  | .CanadianEnglish => "en-CA"
  | .BritishEnglish => "en-GB"
  | .IndianEnglish => "en-IN"
  | .AmericanEnglish => "en-US"
  | .Japanese => "ja-JP"
  | .Hindi => "hi-HI"
  | .Spanish => "es-ES"
  | .MexicanSpanish => "es-MX"
  | .AmericanSpanish => "es-US"
  | .French => "fr-FR"
  | .CanadianFrench => "fr-CA"
  | .BrazilianPortuguese => "pt-BR"
  | .Other s => s

/-- `impl From<S> for Locale` from `src/request.rs`: the entire input string
is matched against the fifteen known locale codes; anything else becomes
`Other` holding the whole string.  (Named `fromString` because `from` is a
reserved word in Lean.) -/
def Locale.fromString (s : String) : Locale :=
  if s = "it-IT" then .Italian
  else if s = "de-DE" then .German
  else if s = "en-AU" then .AustralianEnglish
  else if s = "en-CA" then .CanadianEnglish
  else if s = "en-GB" then .BritishEnglish
  else if s = "en-IN" then .IndianEnglish
  else if s = "en-US" then .AmericanEnglish
  else if s = "ja-JP" then .Japanese
  else if s = "hi-HI" then .Hindi
  else if s = "es-ES" then .Spanish
  else if s = "es-MX" then .MexicanSpanish
  else if s = "es-US" then .AmericanSpanish
  else if s = "fr-FR" then .French
  else if s = "fr-CA" then .CanadianFrench
  else if s = "pt-BR" then .BrazilianPortuguese
  else .Other s

/-- The fifteen known locale codes, in the order of the source match. -/
def Locale.wireStrings : List String :=
  ["it-IT", "de-DE", "en-AU", "en-CA", "en-GB", "en-IN", "en-US", "ja-JP",
   "hi-HI", "es-ES", "es-MX", "es-US", "fr-FR", "fr-CA", "pt-BR"]

/-- Whether a `Locale` is a known locale (not the unknown carrier). -/
def Locale.isKnown : Locale → Bool
  | .Other _ => false
  | _ => true

/-- Number of hyphen characters in a string. -/
def hyphenCount (s : String) : Nat :=
  s.data.count (Char.ofNat 45)

/-- Splits a character list at the first hyphen: the part before it, and
(when a hyphen is present) the remainder after it. -/
def breakHyphen : List Char → List Char × Option (List Char)
  | [] => ([], none)
  | c :: cs =>
      if c = Char.ofNat 45 then ([], some cs)
      else
        let p := breakHyphen cs
        (c :: p.1, p.2)

/-- Modelled from the spec (for comparison with the source `Locale`): the
spec describes the locale's language component as an open enumeration of
language codes; this type follows the spec's words, it does not appear in
`src/`. -/
inductive SpecLanguage where
  | English
  | French
  | Spanish
  | German
  | Italian
  | Japanese
  | Hindi
  | Portuguese
  | Other (s : String)
deriving DecidableEq

/-- Modelled from the spec: decoding of the language segment as an open
enumeration (known language codes, anything else carried unmodified). -/
def SpecLanguage.fromString (s : String) : SpecLanguage :=
  if s = "en" then .English
  else if s = "fr" then .French
  else if s = "es" then .Spanish
  else if s = "de" then .German
  else if s = "it" then .Italian
  else if s = "ja" then .Japanese
  else if s = "hi" then .Hindi
  else if s = "pt" then .Portuguese
  else .Other s

/-- Modelled from the spec: the region component as an open enumeration of
region codes. -/
inductive SpecRegion where
  | IT
  | DE
  | AU
  | CA
  | GB
  | IN
  | US
  | JP
  | HI
  | ES
  | MX
  | FR
  | BR
  | Other (s : String)
deriving DecidableEq

/-- Modelled from the spec: decoding of the region segment as an open
enumeration. -/
def SpecRegion.fromString (s : String) : SpecRegion :=
  if s = "IT" then .IT
  else if s = "DE" then .DE
  else if s = "AU" then .AU
  else if s = "CA" then .CA
  else if s = "GB" then .GB
  else if s = "IN" then .IN
  else if s = "US" then .US
  else if s = "JP" then .JP
  else if s = "HI" then .HI
  else if s = "ES" then .ES
  else if s = "MX" then .MX
  else if s = "FR" then .FR
  else if s = "BR" then .BR
  else .Other s

/-- Modelled from the spec: the composite locale
`{ language : OpenEnumeration, region : Optional OpenEnumeration }` the spec
describes in its data model. -/
structure SpecLocale where
  language : SpecLanguage
  region : Option SpecRegion
deriving DecidableEq

/-- Modelled from the spec: `parse(s)` splits `s` on the first hyphen; the
first segment is decoded as the language, the remainder (if any) as the
region. -/
def SpecLocale.parse (s : String) : SpecLocale :=
  let p := breakHyphen s.data
  match p.2 with
  | none => ⟨SpecLanguage.fromString (String.mk p.1), none⟩
  | some r =>
      ⟨SpecLanguage.fromString (String.mk p.1),
       some (SpecRegion.fromString (String.mk r))⟩

/-- Modelled from the spec: `is_english()` is true iff the language component
equals the known English language symbol. -/
def SpecLocale.is_english (l : SpecLocale) : Bool :=
  match l.language with
  | .English => true
  | _ => false

/-! Decoder helpers modelling serde derive semantics: a required field is
looked up and decoded (missing means failure); a field of `Option` type is
absent-or-null tolerant. -/

/-- Required struct field: look up `k` and decode it, failing when absent. -/
def reqField {α : Type} (fields : List (String × Json)) (k : String)
    (dec : Json → Except String α) : Except String α :=
  match fields.lookup k with
  | some v => dec v
  | none => Except.error ("missing field " ++ k)

/-- Optional struct field (Rust `Option` type): absent or `null` decodes to
`none`, anything else is decoded and wrapped in `some`. -/
def optField {α : Type} (fields : List (String × Json)) (k : String)
    (dec : Json → Except String α) : Except String (Option α) :=
  match fields.lookup k with
  | none => Except.ok none
  | some Json.null => Except.ok none
  | some v => (dec v).map some

/-- Decoding a JSON value as a string. -/
def Json.asString : Json → Except String String
  | .str s => .ok s
  | _ => .error "expected a string"

/-- Decoding a JSON value as a boolean. -/
def Json.asBool : Json → Except String Bool
  | .bool b => .ok b
  | _ => .error "expected a boolean"

/-- Decoding a JSON value as an array. -/
def Json.asArray : Json → Except String (List Json)
  | .arr xs => .ok xs
  | _ => .error "expected an array"

/-- Decoding a JSON number as an unsigned integer of the given bit width
(models Rust `u64`/`u16` fields: negative or out-of-range numbers fail). -/
def Json.asUnsigned (width : Nat) : Json → Except String Nat
  | .num n => if 0 ≤ n ∧ n < (2 : Int) ^ width then .ok n.toNat
              else .error "integer out of range"
  | _ => .error "expected an integer"

/-- Decoding a JSON number as an `i64` (models Rust `i64` fields). -/
def Json.asInt64 : Json → Except String Int
  | .num n => if -((2 : Int) ^ 63) ≤ n ∧ n < (2 : Int) ^ 63 then .ok n
              else .error "integer out of range"
  | _ => .error "expected an integer"

/-- Decoding a JSON object as a `HashMap<String, String>` (modelled as an
association list in field order). -/
def decodeStringMap : Json → Except String (List (String × String))
  | Json.obj fields =>
      fields.mapM (fun p => (Json.asString p.2).map (fun v => (p.1, v)))
  | _ => Except.error "expected an object"

/-! The request data model from `src/request.rs`.  `HashMap` fields are
modelled as association lists with key lookup. -/

/-- `Application` from `src/request.rs`. -/
structure Application where
  application_id : String

/-- `User` from `src/request.rs`. -/
structure User where
  user_id : String
  access_token : Option String

/-- `Device` from `src/request.rs`. -/
structure Device where
  device_id : String

/-- `Session` from `src/request.rs`. -/
structure Session where
  new : Bool
  session_id : String
  attributes : Option (List (String × String))
  application : Application
  user : User

/-- `Value` from `src/request.rs`. -/
structure Value where
  name : String
  id : String

/-- `ValueWrapper` from `src/request.rs`. -/
structure ValueWrapper where
  value : Value

/-- `Status` from `src/request.rs`. -/
structure Status where
  code : String

/-- `ResolutionsPerAuthority` from `src/request.rs`. -/
structure ResolutionsPerAuthority where
  authority : String
  status : Status
  values : List ValueWrapper

/-- `Resolution` from `src/request.rs`. -/
structure Resolution where
  resolutions_per_authority : List ResolutionsPerAuthority

/-- `Slot` from `src/request.rs`. -/
structure Slot where
  name : String
  value : Option String
  confirmation_status : Option String
  resolutions : Option Resolution

/-- `Intent` from `src/request.rs`; the slot map is an association list. -/
structure Intent where
  name : IntentType
  confirmation_status : Option String
  slots : Option (List (String × Slot))

/-- `Request` from `src/request.rs`. -/
structure Request where
  request_type : RequestType
  request_id : String
  timestamp : String
  locale : Locale
  intent : Option Intent
  reason : Option String
  dialog_state : Option String

/-- `System` from `src/request.rs`. -/
structure System where
  api_access_token : Option String
  device : Option Device
  application : Option Application

/-- `AudioPlayer` from `src/request.rs`. -/
structure AudioPlayer where
  token : Option String
  offset_in_milliseconds : Option Nat
  player_activity : Option String

/-- `Context` from `src/request.rs`. -/
structure Context where
  system : System
  audio_player : Option AudioPlayer

/-- `RequestEnvelope` from `src/request.rs`. -/
structure RequestEnvelope where
  version : String
  session : Option Session
  request : Request
  context : Context

/-- `Intent::get_slot` from `src/request.rs`:
`self.slots.as_ref()?.get(name)`. -/
def Intent.get_slot (i : Intent) (name : String) : Option Slot :=
  i.slots.bind (fun m => m.lookup name)

/-- `RequestEnvelope::intent_type` from `src/request.rs`. -/
def RequestEnvelope.intent_type (env : RequestEnvelope) : Option IntentType :=
  env.request.intent.map (fun i => i.name)

/-- `RequestEnvelope::slot_value` from `src/request.rs`:
`self.request.intent.as_ref()?.get_slot(slot)?.value.as_ref()`. -/
def RequestEnvelope.slot_value (env : RequestEnvelope) (slot : String) : Option String :=
  (env.request.intent.bind (fun i => i.get_slot slot)).bind (fun sl => sl.value)

/-- `RequestEnvelope::attribute_value` from `src/request.rs`. -/
def RequestEnvelope.attribute_value (env : RequestEnvelope) (key : String) : Option String :=
  (env.session.bind (fun s => s.attributes)).bind (fun attrs => attrs.lookup key)

/-- `RequestEnvelope::is_new` from `src/request.rs`. -/
def RequestEnvelope.is_new (env : RequestEnvelope) : Bool :=
  match env.session with
  | some s => s.new
  | none => false

/-! serde deserialization of the request data model (derived `Deserialize`
implementations; field names follow each struct's `rename_all` attribute). -/

/-- Deserialization of `Application` (camelCase fields). -/
def Application.fromJson : Json → Except String Application
  | Json.obj fields => (reqField fields "applicationId" Json.asString).map Application.mk
  | _ => Except.error "expected an object for Application"

/-- Deserialization of `User` (camelCase fields). -/
def User.fromJson : Json → Except String User
  | Json.obj fields => do
      let uid ← reqField fields "userId" Json.asString
      let tok ← optField fields "accessToken" Json.asString
      Except.ok ⟨uid, tok⟩
  | _ => Except.error "expected an object for User"

/-- Deserialization of `Device` (camelCase fields). -/
def Device.fromJson : Json → Except String Device
  | Json.obj fields => (reqField fields "deviceId" Json.asString).map Device.mk
  | _ => Except.error "expected an object for Device"

/-- Deserialization of `Session` (camelCase fields). -/
def Session.fromJson : Json → Except String Session
  | Json.obj fields => do
      let n ← reqField fields "new" Json.asBool
      let sid ← reqField fields "sessionId" Json.asString
      let attrs ← optField fields "attributes" decodeStringMap
      let app ← reqField fields "application" Application.fromJson
      let usr ← reqField fields "user" User.fromJson
      Except.ok ⟨n, sid, attrs, app, usr⟩
  | _ => Except.error "expected an object for Session"

/-- Deserialization of `Value`. -/
def Value.fromJson : Json → Except String Value
  | Json.obj fields => do
      let nm ← reqField fields "name" Json.asString
      let i ← reqField fields "id" Json.asString
      Except.ok ⟨nm, i⟩
  | _ => Except.error "expected an object for Value"

/-- Deserialization of `ValueWrapper`. -/
def ValueWrapper.fromJson : Json → Except String ValueWrapper
  | Json.obj fields => (reqField fields "value" Value.fromJson).map ValueWrapper.mk
  | _ => Except.error "expected an object for ValueWrapper"

/-- Deserialization of `Status`. -/
def Status.fromJson : Json → Except String Status
  | Json.obj fields => (reqField fields "code" Json.asString).map Status.mk
  | _ => Except.error "expected an object for Status"

/-- Deserialization of `ResolutionsPerAuthority`. -/
def ResolutionsPerAuthority.fromJson : Json → Except String ResolutionsPerAuthority
  | Json.obj fields => do
      let auth ← reqField fields "authority" Json.asString
      let st ← reqField fields "status" Status.fromJson
      let vs ← reqField fields "values"
        (fun j => (Json.asArray j).bind (fun xs => xs.mapM ValueWrapper.fromJson))
      Except.ok ⟨auth, st, vs⟩
  | _ => Except.error "expected an object for ResolutionsPerAuthority"

/-- Deserialization of `Resolution` (camelCase fields). -/
def Resolution.fromJson : Json → Except String Resolution
  | Json.obj fields => do
      let rpa ← reqField fields "resolutionsPerAuthority"
        (fun j => (Json.asArray j).bind (fun xs => xs.mapM ResolutionsPerAuthority.fromJson))
      Except.ok ⟨rpa⟩
  | _ => Except.error "expected an object for Resolution"

/-- Deserialization of `Slot` (camelCase fields). -/
def Slot.fromJson : Json → Except String Slot
  | Json.obj fields => do
      let nm ← reqField fields "name" Json.asString
      let v ← optField fields "value" Json.asString
      let cs ← optField fields "confirmationStatus" Json.asString
      let rs ← optField fields "resolutions" Resolution.fromJson
      Except.ok ⟨nm, v, cs, rs⟩
  | _ => Except.error "expected an object for Slot"

/-- Deserialization of the intent slot map `HashMap<String, Slot>`. -/
def decodeSlotMap : Json → Except String (List (String × Slot))
  | Json.obj fields =>
      fields.mapM (fun p => (Slot.fromJson p.2).map (fun sl => (p.1, sl)))
  | _ => Except.error "expected an object"

/-- Deserialization of `IntentType`: any string decodes (through the open
enumeration), anything else fails. -/
def IntentType.fromJson : Json → Except String IntentType
  | Json.str s => Except.ok (IntentType.fromString s)
  | _ => Except.error "expected a string for IntentType"

/-- Deserialization of `RequestType`. -/
def RequestType.fromJson : Json → Except String RequestType
  | Json.str s => Except.ok (RequestType.fromString s)
  | _ => Except.error "expected a string for RequestType"

/-- Deserialization of `Locale` (the `LocaleVisitor` accepts any string). -/
def Locale.fromJson : Json → Except String Locale
  | Json.str s => Except.ok (Locale.fromString s)
  | _ => Except.error "expected a string for Locale"

/-- Deserialization of `Intent` (camelCase fields). -/
def Intent.fromJson : Json → Except String Intent
  | Json.obj fields => do
      let nm ← reqField fields "name" IntentType.fromJson
      let cs ← optField fields "confirmationStatus" Json.asString
      let sl ← optField fields "slots" decodeSlotMap
      Except.ok ⟨nm, cs, sl⟩
  | _ => Except.error "expected an object for Intent"

/-- Deserialization of `Request` (camelCase fields; `request_type` is
renamed to `type` on the wire). -/
def Request.fromJson : Json → Except String Request
  | Json.obj fields => do
      let ty ← reqField fields "type" RequestType.fromJson
      let rid ← reqField fields "requestId" Json.asString
      let ts ← reqField fields "timestamp" Json.asString
      let loc ← reqField fields "locale" Locale.fromJson
      let it ← optField fields "intent" Intent.fromJson
      let rs ← optField fields "reason" Json.asString
      let ds ← optField fields "dialogState" Json.asString
      Except.ok ⟨ty, rid, ts, loc, it, rs, ds⟩
  | _ => Except.error "expected an object for Request"

/-- Deserialization of `System` (camelCase fields). -/
def System.fromJson : Json → Except String System
  | Json.obj fields => do
      let tok ← optField fields "apiAccessToken" Json.asString
      let dev ← optField fields "device" Device.fromJson
      let app ← optField fields "application" Application.fromJson
      Except.ok ⟨tok, dev, app⟩
  | _ => Except.error "expected an object for System"

/-- Deserialization of `AudioPlayer` (camelCase fields). -/
def AudioPlayer.fromJson : Json → Except String AudioPlayer
  | Json.obj fields => do
      let tok ← optField fields "token" Json.asString
      let off ← optField fields "offsetInMilliseconds" (Json.asUnsigned 64)
      let act ← optField fields "playerActivity" Json.asString
      Except.ok ⟨tok, off, act⟩
  | _ => Except.error "expected an object for AudioPlayer"

/-- Deserialization of `Context` (PascalCase keys `System`, `AudioPlayer`). -/
def Context.fromJson : Json → Except String Context
  | Json.obj fields => do
      let sys ← reqField fields "System" System.fromJson
      let ap ← optField fields "AudioPlayer" AudioPlayer.fromJson
      Except.ok ⟨sys, ap⟩
  | _ => Except.error "expected an object for Context"

/-- Deserialization of the whole `RequestEnvelope`: `version`, `request` and
`context` are required, `session` is optional; any failure in a field fails
the whole envelope (a single decode error, no partial value). -/
def RequestEnvelope.fromJson : Json → Except String RequestEnvelope
  | Json.obj fields => do
      let ver ← reqField fields "version" Json.asString
      let ses ← optField fields "session" Session.fromJson
      let req ← reqField fields "request" Request.fromJson
      let ctx ← reqField fields "context" Context.fromJson
      Except.ok ⟨ver, ses, req, ctx⟩
  | _ => Except.error "expected an object for RequestEnvelope"

/-- Whether a decode result is a failure. -/
def decodeFails {α : Type} (r : Except String α) : Bool :=
  match r with
  | .error _ => true
  | .ok _ => false

/-! The response data model from `src/response.rs`, `src/audioplayer.rs` and
`src/display.rs`, with serde serialization (`toJson`).  Fields marked
`skip_serializing_if = "Option::is_none"` are omitted when `none`. -/

/-- `Version` from `src/response.rs`. -/
inductive Version where
  | V1_0
  | Other (s : String)
deriving DecidableEq

/-- Serialization of `Version` (the known variant is renamed `1.0`; the
untagged `Other` serializes its string). -/
def Version.toJson : Version → Json
  | .V1_0 => Json.str "1.0"
  | .Other s => Json.str s

/-- `Speech` from `src/response.rs`. -/
structure Speech where
  speech_type : SpeechType
  text : Option String
  ssml : Option String
  play_behavior : Option PlayBehavior

/-- `Speech::plain` from `src/response.rs`. -/
def Speech.plain (s : String) : Speech :=
  ⟨SpeechType.PlainText, some s, none, none⟩

/-- `Image` from `src/response.rs`. -/
structure Image where
  small_image_url : Option String
  large_image_url : Option String

/-- `Card` from `src/response.rs`. -/
structure Card where
  card_type : CardType
  title : Option String
  content : Option String
  text : Option String
  image : Option Image
  permissions : Option (List String)

/-- `Card::simple` from `src/response.rs`. -/
def Card.simple (title text : String) : Card :=
  ⟨CardType.Simple, some title, some text, none, none, none⟩

/-- `Reprompt` from `src/response.rs`. -/
structure Reprompt where
  output_speech : Speech

/-- `ImageInstance` from `src/display.rs` (pixel fields are `u16`). -/
structure DisplayImageInstance where
  url : String
  size : Option ImageSize
  width_pixels : Option Nat
  height_pixels : Option Nat

/-- `Image` from `src/display.rs` (named apart from the response `Image`). -/
structure DisplayImage where
  content_description : Option String
  sources : List DisplayImageInstance

/-- `CaptionData` from `src/audioplayer.rs`; note `content` has no skip
attribute, so a `none` serializes as an explicit `null`. -/
structure CaptionData where
  data_type : Option String
  content : Option String

/-- `Stream` from `src/audioplayer.rs` (`offset_in_milliseconds` is `i64`). -/
structure Stream where
  url : String
  token : String
  offset_in_milliseconds : Int
  expected_previous_token : Option String
  caption_data : Option CaptionData

/-- `AudioItemMetadata` from `src/audioplayer.rs`. -/
structure AudioItemMetadata where
  title : Option String
  subtitle : Option String
  art : Option DisplayImage
  background_image : Option DisplayImage

/-- `AudioItem` from `src/audioplayer.rs`. -/
structure AudioItem where
  stream : Stream
  metadata : Option AudioItemMetadata

/-- `PlayDirective` from `src/audioplayer.rs`. -/
structure PlayDirective where
  audio_item : AudioItem
  play_behavior : PlayBehavior

/-- `Directive` from `src/response.rs`: a `type`-tagged union of the
recognized directive kinds with an untagged opaque fallback carrying the
whole JSON value. -/
inductive Directive where
  | Play (d : PlayDirective)
  | Stop
  | Other (v : Json)

/-- `Response` from `src/response.rs`. -/
structure Response where
  output_speech : Option Speech
  card : Option Card
  reprompt : Option Reprompt
  should_end_session : Bool
  directives : Option (List Directive)

/-- `ResponseEnvelope` from `src/response.rs` (the attribute map is an
association list). -/
structure ResponseEnvelope where
  version : Version
  session_attributes : Option (List (String × String))
  response : Response

/-- `ResponseEnvelope::new` from `src/response.rs`. -/
def ResponseEnvelope.new (should_end : Bool) : ResponseEnvelope :=
  ⟨Version.V1_0, none, ⟨none, none, none, should_end, none⟩⟩

/-- `ResponseEnvelope::card` from `src/response.rs`. -/
def ResponseEnvelope.card (e : ResponseEnvelope) (c : Card) : ResponseEnvelope :=
  { e with response := { e.response with card := some c } }

/-- `ResponseEnvelope::speech` from `src/response.rs`. -/
def ResponseEnvelope.speech (e : ResponseEnvelope) (sp : Speech) : ResponseEnvelope :=
  { e with response := { e.response with output_speech := some sp } }

/-- `ResponseEnvelope::simple` from `src/response.rs`:
`Self::new(true).card(Card::simple(title, text)).speech(Speech::plain(text))`. -/
def ResponseEnvelope.simple (title text : String) : ResponseEnvelope :=
  ((ResponseEnvelope.new true).card (Card.simple title text)).speech (Speech.plain text)

/-- Serialization helper: a field that is omitted when the option is
`none` (serde `skip_serializing_if = "Option::is_none"`). -/
def optPair {α : Type} (k : String) (o : Option α) (f : α → Json) : List (String × Json) :=
  match o with
  | none => []
  | some a => [(k, f a)]

/-- Serialization of `Speech` (camelCase fields, `speech_type` renamed to
`type`, the optional fields skipped when `none`). -/
def Speech.toJson (sp : Speech) : Json :=
  Json.obj ([("type", Json.str sp.speech_type.toWire)] ++
    optPair "text" sp.text Json.str ++
    optPair "ssml" sp.ssml Json.str ++
    optPair "playBehavior" sp.play_behavior (fun pb => Json.str pb.toWire))

/-- Serialization of the response `Image` (camelCase fields). -/
def Image.toJson (im : Image) : Json :=
  Json.obj (optPair "smallImageUrl" im.small_image_url Json.str ++
    optPair "largeImageUrl" im.large_image_url Json.str)

/-- Serialization of `Card` (`card_type` renamed to `type`, optional fields
skipped when `none`). -/
def Card.toJson (c : Card) : Json :=
  Json.obj ([("type", Json.str c.card_type.toWire)] ++
    optPair "title" c.title Json.str ++
    optPair "content" c.content Json.str ++
    optPair "text" c.text Json.str ++
    optPair "image" c.image Image.toJson ++
    optPair "permissions" c.permissions (fun ps => Json.arr (ps.map Json.str)))

/-- Serialization of `Reprompt` (camelCase fields). -/
def Reprompt.toJson (r : Reprompt) : Json :=
  Json.obj [("outputSpeech", r.output_speech.toJson)]

/-- Serialization of `ImageInstance` from `src/display.rs`. -/
def DisplayImageInstance.toJson (ii : DisplayImageInstance) : Json :=
  Json.obj ([("url", Json.str ii.url)] ++
    optPair "size" ii.size (fun sz => Json.str sz.toWire) ++
    optPair "widthPixels" ii.width_pixels (fun n => Json.num n) ++
    optPair "heightPixels" ii.height_pixels (fun n => Json.num n))

/-- Serialization of `Image` from `src/display.rs`. -/
def DisplayImage.toJson (im : DisplayImage) : Json :=
  Json.obj (optPair "contentDescription" im.content_description Json.str ++
    [("sources", Json.arr (im.sources.map DisplayImageInstance.toJson))])

/-- Serialization of `CaptionData` (`data_type` renamed to `type` and
skipped when `none`; `content` has no skip attribute, so `none` emits an
explicit `null`). -/
def CaptionData.toJson (cd : CaptionData) : Json :=
  Json.obj (optPair "type" cd.data_type Json.str ++
    [("content", match cd.content with
                 | some s => Json.str s
                 | none => Json.null)])

/-- Serialization of `Stream` (camelCase fields). -/
def Stream.toJson (st : Stream) : Json :=
  Json.obj ([("url", Json.str st.url), ("token", Json.str st.token),
    ("offsetInMilliseconds", Json.num st.offset_in_milliseconds)] ++
    optPair "expectedPreviousToken" st.expected_previous_token Json.str ++
    optPair "captionData" st.caption_data CaptionData.toJson)

/-- Serialization of `AudioItemMetadata` (camelCase fields). -/
def AudioItemMetadata.toJson (md : AudioItemMetadata) : Json :=
  Json.obj (optPair "title" md.title Json.str ++
    optPair "subtitle" md.subtitle Json.str ++
    optPair "art" md.art DisplayImage.toJson ++
    optPair "backgroundImage" md.background_image DisplayImage.toJson)

/-- Serialization of `AudioItem` (camelCase fields). -/
def AudioItem.toJson (ai : AudioItem) : Json :=
  Json.obj ([("stream", ai.stream.toJson)] ++
    optPair "metadata" ai.metadata AudioItemMetadata.toJson)

/-- Fields of a serialized `PlayDirective` (camelCase). -/
def PlayDirective.fieldsJson (d : PlayDirective) : List (String × Json) :=
  [("audioItem", d.audio_item.toJson),
   ("playBehavior", Json.str d.play_behavior.toWire)]

/-- Serialization of `Directive`: recognized kinds carry their `type` tag
followed by the payload fields (internally tagged); the untagged `Other`
serializes its held JSON value verbatim. -/
def Directive.toJson : Directive → Json
  | .Play d => Json.obj (("type", Json.str "AudioPlayer.Play") :: d.fieldsJson)
  | .Stop => Json.obj [("type", Json.str "AudioPlayer.Stop")]
  | .Other v => v

/-- Deserialization of `ImageSize` (any string decodes). -/
def ImageSize.fromJson : Json → Except String ImageSize
  | Json.str s => Except.ok (ImageSize.fromString s)
  | _ => Except.error "expected a string for ImageSize"

/-- Deserialization of `PlayBehavior` (any string decodes). -/
def PlayBehavior.fromJson : Json → Except String PlayBehavior
  | Json.str s => Except.ok (PlayBehavior.fromString s)
  | _ => Except.error "expected a string for PlayBehavior"

/-- Deserialization of `ImageInstance` from `src/display.rs`. -/
def DisplayImageInstance.fromJson : Json → Except String DisplayImageInstance
  | Json.obj fields => do
      let u ← reqField fields "url" Json.asString
      let sz ← optField fields "size" ImageSize.fromJson
      let w ← optField fields "widthPixels" (Json.asUnsigned 16)
      let hpx ← optField fields "heightPixels" (Json.asUnsigned 16)
      Except.ok ⟨u, sz, w, hpx⟩
  | _ => Except.error "expected an object for ImageInstance"

/-- Deserialization of `Image` from `src/display.rs`. -/
def DisplayImage.fromJson : Json → Except String DisplayImage
  | Json.obj fields => do
      let cd ← optField fields "contentDescription" Json.asString
      let srcs ← reqField fields "sources"
        (fun j => (Json.asArray j).bind (fun xs => xs.mapM DisplayImageInstance.fromJson))
      Except.ok ⟨cd, srcs⟩
  | _ => Except.error "expected an object for Image"

/-- Deserialization of `CaptionData`. -/
def CaptionData.fromJson : Json → Except String CaptionData
  | Json.obj fields => do
      let ty ← optField fields "type" Json.asString
      let c ← optField fields "content" Json.asString
      Except.ok ⟨ty, c⟩
  | _ => Except.error "expected an object for CaptionData"

/-- Deserialization of `Stream`. -/
def Stream.fromJson : Json → Except String Stream
  | Json.obj fields => do
      let u ← reqField fields "url" Json.asString
      let tok ← reqField fields "token" Json.asString
      let off ← reqField fields "offsetInMilliseconds" Json.asInt64
      let ept ← optField fields "expectedPreviousToken" Json.asString
      let cap ← optField fields "captionData" CaptionData.fromJson
      Except.ok ⟨u, tok, off, ept, cap⟩
  | _ => Except.error "expected an object for Stream"

/-- Deserialization of `AudioItemMetadata`. -/
def AudioItemMetadata.fromJson : Json → Except String AudioItemMetadata
  | Json.obj fields => do
      let t ← optField fields "title" Json.asString
      let st ← optField fields "subtitle" Json.asString
      let a ← optField fields "art" DisplayImage.fromJson
      let bg ← optField fields "backgroundImage" DisplayImage.fromJson
      Except.ok ⟨t, st, a, bg⟩
  | _ => Except.error "expected an object for AudioItemMetadata"

/-- Deserialization of `AudioItem`. -/
def AudioItem.fromJson : Json → Except String AudioItem
  | Json.obj fields => do
      let st ← reqField fields "stream" Stream.fromJson
      let md ← optField fields "metadata" AudioItemMetadata.fromJson
      Except.ok ⟨st, md⟩
  | _ => Except.error "expected an object for AudioItem"

/-- Deserialization of `PlayDirective` (internally tagged, so it reads its
fields from the same object that carries the `type` tag). -/
def PlayDirective.fromJson : Json → Except String PlayDirective
  | Json.obj fields => do
      let ai ← reqField fields "audioItem" AudioItem.fromJson
      let pb ← reqField fields "playBehavior" PlayBehavior.fromJson
      Except.ok ⟨ai, pb⟩
  | _ => Except.error "expected an object for PlayDirective"

/-- Deserialization of `Directive`: the `type` discriminator selects a
recognized payload; any other value falls through to the untagged opaque
variant holding the entire JSON value, and never fails there. -/
def Directive.fromJson (j : Json) : Except String Directive :=
  match j.getField "type" with
  | some (Json.str t) =>
      if t = "AudioPlayer.Play" then (PlayDirective.fromJson j).map Directive.Play
      else if t = "AudioPlayer.Stop" then Except.ok Directive.Stop
      else Except.ok (Directive.Other j)
  | _ => Except.ok (Directive.Other j)

/-- Serialization of `Response` (camelCase fields; `outputSpeech`, `card`,
`reprompt` and `directives` are skipped when `none`). -/
def Response.toJson (r : Response) : Json :=
  Json.obj (optPair "outputSpeech" r.output_speech Speech.toJson ++
    optPair "card" r.card Card.toJson ++
    optPair "reprompt" r.reprompt Reprompt.toJson ++
    [("shouldEndSession", Json.bool r.should_end_session)] ++
    optPair "directives" r.directives (fun ds => Json.arr (ds.map Directive.toJson)))

/-- Serialization of `ResponseEnvelope` (camelCase fields;
`sessionAttributes` is skipped when `none`). -/
def ResponseEnvelope.toJson (e : ResponseEnvelope) : Json :=
  Json.obj ([("version", e.version.toJson)] ++
    optPair "sessionAttributes" e.session_attributes
      (fun m => Json.obj (m.map (fun p => (p.1, Json.str p.2)))) ++
    [("response", e.response.toJson)])

/-- Concrete request envelope with no intent, for evaluating accessors. -/
def sampleRequestNoIntent : RequestEnvelope :=
  ⟨"1.0", none,
   ⟨RequestType.LaunchRequest, "amzn1.echo-api.request.r1", "2018-12-03T00:33:58Z",
    Locale.AmericanEnglish, none, none, none⟩,
   ⟨⟨none, none, none⟩, none⟩⟩

/-- Concrete unrecognized directive payload, for evaluating passthrough. -/
def sampleOpaqueDirective : Json :=
  Json.obj [("type", Json.str "Alexa.Presentation.APL.RenderDocument"),
            ("token", Json.str "doc1")]

end Alexa

namespace Alexa

theorem requestType_known_roundtrip (k : RequestType) (h : k.isKnown = true) :
    RequestType.fromString k.toWire = k := by
  cases k <;> simp [RequestType.isKnown] at h ⊢ <;> rfl

theorem requestType_not_known (s : String) (h : s ∉ RequestType.wireStrings) :
    RequestType.fromString s = RequestType.Other s := by
  simp only [RequestType.wireStrings, List.mem_cons, List.not_mem_nil, or_false, not_or] at h
  obtain ⟨h1, h2, h3, h4⟩ := h
  unfold RequestType.fromString
  rw [if_neg h1, if_neg h2, if_neg h3, if_neg h4]

theorem intentType_known_roundtrip (k : IntentType) (h : k.isKnown = true) :
    IntentType.fromString k.toWire = k := by
  cases k <;> simp [IntentType.isKnown] at h ⊢ <;> rfl

theorem intentType_not_known (s : String) (h : s ∉ IntentType.wireStrings) :
    IntentType.fromString s = IntentType.Other s := by
  simp only [IntentType.wireStrings, List.mem_cons, List.not_mem_nil, or_false, not_or] at h
  obtain ⟨h1, h2, h3, h4, h5, h6, h7, h8, h9, h10, h11, h12, h13, h14, h15, h16, h17, h18⟩ := h
  unfold IntentType.fromString
  rw [if_neg h1, if_neg h2, if_neg h3, if_neg h4, if_neg h5, if_neg h6, if_neg h7,
    if_neg h8, if_neg h9, if_neg h10, if_neg h11, if_neg h12, if_neg h13, if_neg h14,
    if_neg h15, if_neg h16, if_neg h17, if_neg h18]

theorem speechType_known_roundtrip (k : SpeechType) (h : k.isKnown = true) :
    SpeechType.fromString k.toWire = k := by
  cases k <;> simp [SpeechType.isKnown] at h ⊢ <;> rfl

theorem speechType_not_known (s : String) (h : s ∉ SpeechType.wireStrings) :
    SpeechType.fromString s = SpeechType.Other s := by
  simp only [SpeechType.wireStrings, List.mem_cons, List.not_mem_nil, or_false, not_or] at h
  obtain ⟨h1, h2⟩ := h
  unfold SpeechType.fromString
  rw [if_neg h1, if_neg h2]

theorem cardType_known_roundtrip (k : CardType) (h : k.isKnown = true) :
    CardType.fromString k.toWire = k := by
  cases k <;> simp [CardType.isKnown] at h ⊢ <;> rfl

theorem cardType_not_known (s : String) (h : s ∉ CardType.wireStrings) :
    CardType.fromString s = CardType.Other s := by
  simp only [CardType.wireStrings, List.mem_cons, List.not_mem_nil, or_false, not_or] at h
  obtain ⟨h1, h2, h3, h4⟩ := h
  unfold CardType.fromString
  rw [if_neg h1, if_neg h2, if_neg h3, if_neg h4]

theorem playBehavior_known_roundtrip (k : PlayBehavior) (h : k.isKnown = true) :
    PlayBehavior.fromString k.toWire = k := by
  cases k <;> simp [PlayBehavior.isKnown] at h ⊢ <;> rfl

theorem playBehavior_not_known (s : String) (h : s ∉ PlayBehavior.wireStrings) :
    PlayBehavior.fromString s = PlayBehavior.Other s := by
  simp only [PlayBehavior.wireStrings, List.mem_cons, List.not_mem_nil, or_false, not_or] at h
  obtain ⟨h1, h2, h3⟩ := h
  unfold PlayBehavior.fromString
  rw [if_neg h1, if_neg h2, if_neg h3]

theorem imageSize_known_roundtrip (k : ImageSize) (h : k.isKnown = true) :
    ImageSize.fromString k.toWire = k := by
  cases k <;> simp [ImageSize.isKnown] at h ⊢ <;> rfl

theorem imageSize_not_known (s : String) (h : s ∉ ImageSize.wireStrings) :
    ImageSize.fromString s = ImageSize.Other s := by
  simp only [ImageSize.wireStrings, List.mem_cons, List.not_mem_nil, or_false, not_or] at h
  obtain ⟨h1, h2, h3, h4, h5⟩ := h
  unfold ImageSize.fromString
  rw [if_neg h1, if_neg h2, if_neg h3, if_neg h4, if_neg h5]

theorem locale_known_roundtrip (k : Locale) (h : k.isKnown = true) :
    Locale.fromString k.as_str = k := by
  cases k <;> simp [Locale.isKnown] at h ⊢ <;> rfl

theorem locale_not_known (s : String) (h : s ∉ Locale.wireStrings) :
    Locale.fromString s = Locale.Other s := by
  simp only [Locale.wireStrings, List.mem_cons, List.not_mem_nil, or_false, not_or] at h
  obtain ⟨h1, h2, h3, h4, h5, h6, h7, h8, h9, h10, h11, h12, h13, h14, h15⟩ := h
  unfold Locale.fromString
  rw [if_neg h1, if_neg h2, if_neg h3, if_neg h4, if_neg h5, if_neg h6, if_neg h7,
    if_neg h8, if_neg h9, if_neg h10, if_neg h11, if_neg h12, if_neg h13, if_neg h14,
    if_neg h15]

theorem locale_as_str_fromString (s : String) : (Locale.fromString s).as_str = s := by
  by_cases h : s ∈ Locale.wireStrings
  · fin_cases h <;> rfl
  · rw [locale_not_known s h]
    rfl

/-- C1: for every declared open enumeration (request type, intent name,
speech type, card type, play behavior, image size), decoding is total (it is
a Lean function `String → E`): a known wire string decodes to its known
symbol, and any other string, the empty string included, decodes to
`Other s` holding `s` unmodified. -/
theorem C1_open_enum_decode_total :
    (∀ k : RequestType, k.isKnown = true → RequestType.fromString k.toWire = k) ∧
    (∀ s : String, s ∉ RequestType.wireStrings → RequestType.fromString s = RequestType.Other s) ∧
    (∀ k : IntentType, k.isKnown = true → IntentType.fromString k.toWire = k) ∧
    (∀ s : String, s ∉ IntentType.wireStrings → IntentType.fromString s = IntentType.Other s) ∧
    (∀ k : SpeechType, k.isKnown = true → SpeechType.fromString k.toWire = k) ∧
    (∀ s : String, s ∉ SpeechType.wireStrings → SpeechType.fromString s = SpeechType.Other s) ∧
    (∀ k : CardType, k.isKnown = true → CardType.fromString k.toWire = k) ∧
    (∀ s : String, s ∉ CardType.wireStrings → CardType.fromString s = CardType.Other s) ∧
    (∀ k : PlayBehavior, k.isKnown = true → PlayBehavior.fromString k.toWire = k) ∧
    (∀ s : String, s ∉ PlayBehavior.wireStrings → PlayBehavior.fromString s = PlayBehavior.Other s) ∧
    (∀ k : ImageSize, k.isKnown = true → ImageSize.fromString k.toWire = k) ∧
    (∀ s : String, s ∉ ImageSize.wireStrings → ImageSize.fromString s = ImageSize.Other s) ∧
    RequestType.fromString "" = RequestType.Other "" ∧
    IntentType.fromString "" = IntentType.Other "" ∧
    SpeechType.fromString "" = SpeechType.Other "" ∧
    CardType.fromString "" = CardType.Other "" ∧
    PlayBehavior.fromString "" = PlayBehavior.Other "" ∧
    ImageSize.fromString "" = ImageSize.Other "" :=
  ⟨requestType_known_roundtrip, requestType_not_known,
   intentType_known_roundtrip, intentType_not_known,
   speechType_known_roundtrip, speechType_not_known,
   cardType_known_roundtrip, cardType_not_known,
   playBehavior_known_roundtrip, playBehavior_not_known,
   imageSize_known_roundtrip, imageSize_not_known,
   rfl, rfl, rfl, rfl, rfl, rfl⟩

/-- C1 witness: the theorem evaluated at concrete inputs, one known and one
unknown wire string per enumeration. -/
theorem C1_open_enum_decode_total_witness :
    RequestType.fromString "LaunchRequest" = RequestType.LaunchRequest ∧
    RequestType.fromString "nope" = RequestType.Other "nope" ∧
    IntentType.fromString "AMAZON.HelpIntent" = IntentType.Help ∧
    IntentType.fromString "hello" = IntentType.Other "hello" ∧
    SpeechType.fromString "SSML" = SpeechType.SSML ∧
    SpeechType.fromString "ssml" = SpeechType.Other "ssml" ∧
    CardType.fromString "Simple" = CardType.Simple ∧
    CardType.fromString "FooBar" = CardType.Other "FooBar" ∧
    PlayBehavior.fromString "REPLACE_ALL" = PlayBehavior.ReplaceAll ∧
    PlayBehavior.fromString "FOO_BAR" = PlayBehavior.Other "FOO_BAR" ∧
    ImageSize.fromString "X_SMALL" = ImageSize.XSmall ∧
    ImageSize.fromString "tiny" = ImageSize.Other "tiny" :=
  ⟨C1_open_enum_decode_total.1 RequestType.LaunchRequest (by decide),
   C1_open_enum_decode_total.2.1 "nope" (by decide),
   C1_open_enum_decode_total.2.2.1 IntentType.Help (by decide),
   C1_open_enum_decode_total.2.2.2.1 "hello" (by decide),
   C1_open_enum_decode_total.2.2.2.2.1 SpeechType.SSML (by decide),
   C1_open_enum_decode_total.2.2.2.2.2.1 "ssml" (by decide),
   C1_open_enum_decode_total.2.2.2.2.2.2.1 CardType.Simple (by decide),
   C1_open_enum_decode_total.2.2.2.2.2.2.2.1 "FooBar" (by decide),
   C1_open_enum_decode_total.2.2.2.2.2.2.2.2.1 PlayBehavior.ReplaceAll (by decide),
   C1_open_enum_decode_total.2.2.2.2.2.2.2.2.2.1 "FOO_BAR" (by decide),
   C1_open_enum_decode_total.2.2.2.2.2.2.2.2.2.2.1 ImageSize.XSmall (by decide),
   C1_open_enum_decode_total.2.2.2.2.2.2.2.2.2.2.2.1 "tiny" (by decide)⟩

/-- C2: for every declared open enumeration, `decode(encode(k)) = k` for every
known symbol `k`, and for every string `s` not equal to any known wire string,
`encode(Other s) = s` and hence `decode(encode(Other s)) = Other s`. -/
theorem C2_open_enum_roundtrip :
    (∀ k : RequestType, k.isKnown = true → RequestType.fromString k.toWire = k) ∧
    (∀ s : String, s ∉ RequestType.wireStrings →
      (RequestType.Other s).toWire = s ∧
      RequestType.fromString (RequestType.Other s).toWire = RequestType.Other s) ∧
    (∀ k : IntentType, k.isKnown = true → IntentType.fromString k.toWire = k) ∧
    (∀ s : String, s ∉ IntentType.wireStrings →
      (IntentType.Other s).toWire = s ∧
      IntentType.fromString (IntentType.Other s).toWire = IntentType.Other s) ∧
    (∀ k : SpeechType, k.isKnown = true → SpeechType.fromString k.toWire = k) ∧
    (∀ s : String, s ∉ SpeechType.wireStrings →
      (SpeechType.Other s).toWire = s ∧
      SpeechType.fromString (SpeechType.Other s).toWire = SpeechType.Other s) ∧
    (∀ k : CardType, k.isKnown = true → CardType.fromString k.toWire = k) ∧
    (∀ s : String, s ∉ CardType.wireStrings →
      (CardType.Other s).toWire = s ∧
      CardType.fromString (CardType.Other s).toWire = CardType.Other s) ∧
    (∀ k : PlayBehavior, k.isKnown = true → PlayBehavior.fromString k.toWire = k) ∧
    (∀ s : String, s ∉ PlayBehavior.wireStrings →
      (PlayBehavior.Other s).toWire = s ∧
      PlayBehavior.fromString (PlayBehavior.Other s).toWire = PlayBehavior.Other s) ∧
    (∀ k : ImageSize, k.isKnown = true → ImageSize.fromString k.toWire = k) ∧
    (∀ s : String, s ∉ ImageSize.wireStrings →
      (ImageSize.Other s).toWire = s ∧
      ImageSize.fromString (ImageSize.Other s).toWire = ImageSize.Other s) :=
  ⟨requestType_known_roundtrip,
   fun s h => ⟨rfl, requestType_not_known s h⟩,
   intentType_known_roundtrip,
   fun s h => ⟨rfl, intentType_not_known s h⟩,
   speechType_known_roundtrip,
   fun s h => ⟨rfl, speechType_not_known s h⟩,
   cardType_known_roundtrip,
   fun s h => ⟨rfl, cardType_not_known s h⟩,
   playBehavior_known_roundtrip,
   fun s h => ⟨rfl, playBehavior_not_known s h⟩,
   imageSize_known_roundtrip,
   fun s h => ⟨rfl, imageSize_not_known s h⟩⟩

/-- C2 witness: the round-trip laws evaluated at concrete inputs. -/
theorem C2_open_enum_roundtrip_witness :
    RequestType.fromString (RequestType.IntentRequest.toWire) = RequestType.IntentRequest ∧
    ((RequestType.Other "xyz").toWire = "xyz" ∧
      RequestType.fromString (RequestType.Other "xyz").toWire = RequestType.Other "xyz") ∧
    IntentType.fromString (IntentType.Stop.toWire) = IntentType.Stop ∧
    ((IntentType.Other "hello").toWire = "hello" ∧
      IntentType.fromString (IntentType.Other "hello").toWire = IntentType.Other "hello") ∧
    SpeechType.fromString (SpeechType.PlainText.toWire) = SpeechType.PlainText ∧
    ((SpeechType.Other "x").toWire = "x" ∧
      SpeechType.fromString (SpeechType.Other "x").toWire = SpeechType.Other "x") ∧
    CardType.fromString (CardType.LinkAccount.toWire) = CardType.LinkAccount ∧
    ((CardType.Other "y").toWire = "y" ∧
      CardType.fromString (CardType.Other "y").toWire = CardType.Other "y") ∧
    PlayBehavior.fromString (PlayBehavior.Enqueue.toWire) = PlayBehavior.Enqueue ∧
    ((PlayBehavior.Other "z").toWire = "z" ∧
      PlayBehavior.fromString (PlayBehavior.Other "z").toWire = PlayBehavior.Other "z") ∧
    ImageSize.fromString (ImageSize.XLarge.toWire) = ImageSize.XLarge ∧
    ((ImageSize.Other "w").toWire = "w" ∧
      ImageSize.fromString (ImageSize.Other "w").toWire = ImageSize.Other "w") :=
  ⟨C2_open_enum_roundtrip.1 RequestType.IntentRequest (by decide),
   C2_open_enum_roundtrip.2.1 "xyz" (by decide),
   C2_open_enum_roundtrip.2.2.1 IntentType.Stop (by decide),
   C2_open_enum_roundtrip.2.2.2.1 "hello" (by decide),
   C2_open_enum_roundtrip.2.2.2.2.1 SpeechType.PlainText (by decide),
   C2_open_enum_roundtrip.2.2.2.2.2.1 "x" (by decide),
   C2_open_enum_roundtrip.2.2.2.2.2.2.1 CardType.LinkAccount (by decide),
   C2_open_enum_roundtrip.2.2.2.2.2.2.2.1 "y" (by decide),
   C2_open_enum_roundtrip.2.2.2.2.2.2.2.2.1 PlayBehavior.Enqueue (by decide),
   C2_open_enum_roundtrip.2.2.2.2.2.2.2.2.2.1 "z" (by decide),
   C2_open_enum_roundtrip.2.2.2.2.2.2.2.2.2.2.1 ImageSize.XLarge (by decide),
   C2_open_enum_roundtrip.2.2.2.2.2.2.2.2.2.2.2 "w" (by decide)⟩

/-- C3 counterexample: the claim says every parsed string whose language
segment (the part before the first hyphen) is the English language code has
`is_english() = true`; but the source matches the whole string against
fifteen known codes, so `"en-ZZ"` (language segment `"en"`) parses to
`Other "en-ZZ"` and `is_english()` returns `false`. -/
theorem C3_counterexample :
    ¬ ((Locale.fromString "en-ZZ").is_english = true) := by decide

/-- C3 (amended): `is_english`, `is_french` and `is_spanish` are true exactly
on the corresponding known locale values (five English, two French, three
Spanish locales); every `Other` locale answers false to all three; and the
concrete parses behave as the spec's examples state (`"en-US"` is English,
`"fr-CA"` is French, `"es-MX"` is Spanish, `"xx-ZZ"` is not English).  A
parsed string is recognised only when it equals one of the fifteen known
codes whole; a known language segment alone does not make the predicate
true. -/
theorem C3_locale_language_predicates :
    (∀ l : Locale, l.is_english = true ↔
      (l = Locale.AustralianEnglish ∨ l = Locale.CanadianEnglish ∨
       l = Locale.BritishEnglish ∨ l = Locale.IndianEnglish ∨
       l = Locale.AmericanEnglish)) ∧
    (∀ l : Locale, l.is_french = true ↔
      (l = Locale.French ∨ l = Locale.CanadianFrench)) ∧
    (∀ l : Locale, l.is_spanish = true ↔
      (l = Locale.Spanish ∨ l = Locale.MexicanSpanish ∨ l = Locale.AmericanSpanish)) ∧
    (∀ s : String, (Locale.Other s).is_english = false ∧
      (Locale.Other s).is_french = false ∧ (Locale.Other s).is_spanish = false) ∧
    (Locale.fromString "en-US").is_english = true ∧
    (Locale.fromString "fr-CA").is_french = true ∧
    (Locale.fromString "es-MX").is_spanish = true ∧
    (Locale.fromString "xx-ZZ").is_english = false := by
  refine ⟨?_, ?_, ?_, ?_, ?_, ?_, ?_, ?_⟩
  · intro l; cases l <;> simp [Locale.is_english]
  · intro l; cases l <;> simp [Locale.is_french]
  · intro l; cases l <;> simp [Locale.is_spanish]
  · intro s; exact ⟨rfl, rfl, rfl⟩
  · decide
  · decide
  · decide
  · decide

/-- C4 counterexample: the claim says parsing splits the string on the first
hyphen and decodes the first segment through the language open enumeration.
Under that reading (the spec-modelled `SpecLocale.parse`), `"en-QQ"` has
language `English` and region `Other "QQ"`; the source instead matches the
whole string and produces the flat unknown carrier `Other "en-QQ"`, whose
`is_english` is false. -/
theorem C4_counterexample :
    (SpecLocale.parse "en-QQ").language = SpecLanguage.English ∧
    (SpecLocale.parse "en-QQ").region = some (SpecRegion.Other "QQ") ∧
    (SpecLocale.parse "en-QQ").is_english = true ∧
    Locale.fromString "en-QQ" = Locale.Other "en-QQ" ∧
    (Locale.fromString "en-QQ").is_english = false := by
  refine ⟨?_, ?_, ?_, ?_, ?_⟩ <;> decide

/-- C4 (amended): parsing does not split the string at all: the entire input,
hyphens included, is matched against the fifteen known locale codes; a match
yields the known locale (which formats back as the full code), and any other
string, whatever its hyphen count, becomes `Other` holding the whole string,
which formats as itself. -/
theorem C4_locale_parse_amended :
    (∀ s : String, s ∉ Locale.wireStrings → Locale.fromString s = Locale.Other s) ∧
    (∀ k : Locale, k.isKnown = true → Locale.fromString k.as_str = k) ∧
    (∀ s : String, (Locale.Other s).as_str = s) :=
  ⟨locale_not_known, locale_known_roundtrip, fun _ => rfl⟩

/-- C4 witness: the amended theorem evaluated at concrete inputs. -/
theorem C4_locale_parse_amended_witness :
    Locale.fromString "en" = Locale.Other "en" ∧
    Locale.fromString "en-US" = Locale.AmericanEnglish ∧
    (Locale.Other "xx-ZZ").as_str = "xx-ZZ" :=
  ⟨C4_locale_parse_amended.1 "en" (by decide),
   C4_locale_parse_amended.2.1 Locale.AmericanEnglish (by decide),
   C4_locale_parse_amended.2.2 "xx-ZZ"⟩

/-- C5: for every locale string with at most one hyphen, formatting the
parsed locale yields the string back: `as_str (from s) = s` (the source in
fact guarantees this for every string, so the hyphen bound is harmless). -/
theorem C5_locale_roundtrip (s : String) (_h : hyphenCount s ≤ 1) :
    (Locale.fromString s).as_str = s :=
  locale_as_str_fromString s

/-- C5 witness: the round-trip at `"en-US"` (one hyphen) and the hypothesis
checked there. -/
theorem C5_locale_roundtrip_witness :
    hyphenCount "en-US" ≤ 1 ∧ (Locale.fromString "en-US").as_str = "en-US" :=
  ⟨by decide, C5_locale_roundtrip "en-US" (by decide)⟩

/-- C10: for every string whatsoever, converting to a `Locale` and formatting
back yields the string verbatim, with no restriction on hyphen count: known
codes map to known locales that format as the same code, and everything else
is carried in `Other` and formats as itself. -/
theorem C10_locale_roundtrip_unrestricted (s : String) :
    (Locale.fromString s).as_str = s :=
  locale_as_str_fromString s

theorem except_error_bind {α β : Type} (e : String) (f : α → Except String β) :
    ((Except.error e : Except String α) >>= f) = Except.error e := rfl

theorem except_ok_bind {α β : Type} (a : α) (f : α → Except String β) :
    ((Except.ok a : Except String α) >>= f) = f a := rfl

/-- C6: a JSON directive value whose `type` discriminator is not a recognized
directive kind deserializes successfully to the opaque variant holding the
entire value, and reserializing that variant reproduces the value exactly
(with a deterministic printer, this is byte-identical output). -/
theorem C6_directive_opaque_passthrough (j : Json)
    (h : ∀ t : String, j.getField "type" = some (Json.str t) →
      t ≠ "AudioPlayer.Play" ∧ t ≠ "AudioPlayer.Stop") :
    Directive.fromJson j = Except.ok (Directive.Other j) ∧
    Directive.toJson (Directive.Other j) = j := by
  refine ⟨?_, rfl⟩
  unfold Directive.fromJson
  cases hm : j.getField "type" with
  | none => rfl
  | some v =>
      cases v with
      | str t =>
          obtain ⟨h1, h2⟩ := h t hm
          simp [h1, h2]
      | null => rfl
      | bool b => rfl
      | num n => rfl
      | arr xs => rfl
      | obj fs => rfl

/-- C6 witness: the passthrough law at a concrete unrecognized directive. -/
theorem C6_directive_opaque_passthrough_witness :
    Directive.fromJson sampleOpaqueDirective =
      Except.ok (Directive.Other sampleOpaqueDirective) ∧
    Directive.toJson (Directive.Other sampleOpaqueDirective) = sampleOpaqueDirective :=
  C6_directive_opaque_passthrough sampleOpaqueDirective (by
    intro t ht
    simp [sampleOpaqueDirective, Json.getField, List.lookup] at ht
    subst ht
    exact ⟨by decide, by decide⟩)

/-- C7: `ResponseEnvelope::simple(T, B)` ends the session, carries a simple
card with title `T` and content `B` and a plain-text speech with text `B`,
and its serialization omits the `sessionAttributes`, `reprompt` and
`directives` keys entirely (the emitted objects carry exactly the keys
`version`/`response` and `outputSpeech`/`card`/`shouldEndSession`). -/
theorem C7_simple_response (title text : String) :
    (ResponseEnvelope.simple title text).response.should_end_session = true ∧
    (ResponseEnvelope.simple title text).response.card = some (Card.simple title text) ∧
    (Card.simple title text).card_type = CardType.Simple ∧
    (Card.simple title text).title = some title ∧
    (Card.simple title text).content = some text ∧
    (ResponseEnvelope.simple title text).response.output_speech = some (Speech.plain text) ∧
    (Speech.plain text).speech_type = SpeechType.PlainText ∧
    (Speech.plain text).text = some text ∧
    (ResponseEnvelope.simple title text).session_attributes = none ∧
    Json.keys (ResponseEnvelope.toJson (ResponseEnvelope.simple title text)) =
      ["version", "response"] ∧
    Json.keys (Response.toJson (ResponseEnvelope.simple title text).response) =
      ["outputSpeech", "card", "shouldEndSession"] :=
  ⟨rfl, rfl, rfl, rfl, rfl, rfl, rfl, rfl, rfl, rfl, rfl⟩

/-- C8: decoding the request envelope is all-or-nothing: an input that is not
an object, lacks the required `request` field, or gives `version` a
non-string shape fails as a whole with a single decode error and produces no
partial envelope; every input either yields a complete envelope or fails. -/
theorem C8_envelope_all_or_nothing :
    (∀ fields : List (String × Json), fields.lookup "request" = none →
      decodeFails (RequestEnvelope.fromJson (Json.obj fields)) = true) ∧
    (∀ (fields : List (String × Json)) (j : Json),
      fields.lookup "version" = some j → (∀ t : String, j ≠ Json.str t) →
      decodeFails (RequestEnvelope.fromJson (Json.obj fields)) = true) ∧
    (∀ j : Json, (∀ fields : List (String × Json), j ≠ Json.obj fields) →
      decodeFails (RequestEnvelope.fromJson j) = true) ∧
    (∀ j : Json, (∃ env, RequestEnvelope.fromJson j = Except.ok env) ∨
      (∃ msg, RequestEnvelope.fromJson j = Except.error msg)) := by
  refine ⟨?_, ?_, ?_, ?_⟩
  · intro fields h
    cases hv : reqField fields "version" Json.asString with
    | error e =>
        simp [RequestEnvelope.fromJson, hv, except_error_bind, decodeFails]
    | ok ver =>
        cases hs : optField fields "session" Session.fromJson with
        | error e =>
            simp [RequestEnvelope.fromJson, hv, hs, except_ok_bind, except_error_bind,
              decodeFails]
        | ok ses =>
            have hreq : reqField fields "request" Request.fromJson =
                Except.error ("missing field " ++ "request") := by
              simp [reqField, h]
            simp [RequestEnvelope.fromJson, hv, hs, hreq, except_ok_bind,
              except_error_bind, decodeFails]
  · intro fields j hj hns
    have hstr : Json.asString j = Except.error "expected a string" := by
      cases j with
      | str t => exact absurd rfl (hns t)
      | null => rfl
      | bool b => rfl
      | num n => rfl
      | arr xs => rfl
      | obj fs => rfl
    have hv : reqField fields "version" Json.asString = Except.error "expected a string" := by
      simp [reqField, hj, hstr]
    simp [RequestEnvelope.fromJson, hv, except_error_bind, decodeFails]
  · intro j hno
    cases j with
    | obj fields => exact absurd rfl (hno fields)
    | null => rfl
    | bool b => rfl
    | num n => rfl
    | str s => rfl
    | arr xs => rfl
  · intro j
    cases hr : RequestEnvelope.fromJson j with
    | ok env => exact Or.inl ⟨env, rfl⟩
    | error e => exact Or.inr ⟨e, rfl⟩

/-- C8 witness: concrete malformed envelopes (missing `request`, non-string
`version`, non-object input) all fail to decode. -/
theorem C8_envelope_all_or_nothing_witness :
    decodeFails (RequestEnvelope.fromJson (Json.obj [("version", Json.str "1.0")])) = true ∧
    decodeFails (RequestEnvelope.fromJson (Json.obj [("version", Json.num 1)])) = true ∧
    decodeFails (RequestEnvelope.fromJson (Json.str "not an envelope")) = true :=
  ⟨C8_envelope_all_or_nothing.1 [("version", Json.str "1.0")] rfl,
   C8_envelope_all_or_nothing.2.1 [("version", Json.num 1)] (Json.num 1) rfl
     (fun _ h => Json.noConfusion h),
   C8_envelope_all_or_nothing.2.2.1 (Json.str "not an envelope")
     (fun _ h => Json.noConfusion h)⟩

/-- C9: `slot_value(name)` returns `some v` exactly when the request carries
an intent whose slot map contains `name` with a slot whose `value` field is
`some v`; when the intent is absent (and in every other miss case, by the
equivalence) the result is `none`, never an error. -/
theorem C9_slot_value_lookup :
    (∀ (env : RequestEnvelope) (name v : String),
      env.slot_value name = some v ↔
        ∃ i : Intent, env.request.intent = some i ∧
        ∃ m : List (String × Slot), i.slots = some m ∧
        ∃ sl : Slot, m.lookup name = some sl ∧ sl.value = some v) ∧
    (∀ (env : RequestEnvelope) (name : String),
      env.request.intent = none → env.slot_value name = none) := by
  constructor
  · intro env name v
    cases hint : env.request.intent with
    | none => simp [RequestEnvelope.slot_value, hint]
    | some i =>
        cases hslots : i.slots with
        | none => simp [RequestEnvelope.slot_value, Intent.get_slot, hint, hslots]
        | some m =>
            cases hl : m.lookup name with
            | none => simp [RequestEnvelope.slot_value, Intent.get_slot, hint, hslots, hl]
            | some sl => simp [RequestEnvelope.slot_value, Intent.get_slot, hint, hslots, hl]
  · intro env name h
    simp [RequestEnvelope.slot_value, h]

/-- C9 witness: the accessor evaluated on a concrete envelope with no
intent. -/
theorem C9_slot_value_lookup_witness :
    sampleRequestNoIntent.slot_value "name" = none :=
  C9_slot_value_lookup.2 sampleRequestNoIntent "name" rfl

end Alexa
